import Mathlib

/-!
Shallow embedding of `src/core/token_fetcher.py` (TSun-FF-TokenUpdater).

The Python module drives a batched, concurrent token-fetch pipeline:
a `RateLimitManager` coordinates a single shared pause on HTTP 429,
`fetch_token` retries one account with exponential backoff and mirror
rotation, `fetch_token_with_timeout` wraps it in a per-account timeout,
`process_region` fans the fetcher out over one region's accounts under a
batch-level timeout and builds a region summary, `push_to_github`
publishes the token list with its own retry loop, and `LogCollector`
keeps a bounded log buffer.

Modelling conventions:
* the mutable `stats` dict becomes an explicit `Stats` value threaded
  through the functions; every `stats['x'] += 1` in the source is an
  atomic field update here (the source runs on a single asyncio loop and
  never awaits between an increment and the enclosing return);
* network responses are supplied by a script `Nat → ApiResponse`
  (indexed by attempt number), random jitter by a function `Nat → ℚ`;
* durations are rationals; `asyncio.wait_for(c, timeout=t)` delivers the
  inner result when the inner coroutine finishes in time `< t`, and
  otherwise cancels it before it can reach a terminal statistics update
  (standard asyncio semantics, Python ≥ 3.8: the inner bare
  `except ... Exception` clause does not catch `CancelledError`);
* for the timed rate-limit pause analysis, instants are naturals counted
  in tenths of a time unit (so the 5-unit cooldown is 50 ticks and the
  `asyncio.sleep(0.1)` is 1 tick).
-/

namespace TokenFetcher

/-! ### Configuration constants (token_fetcher.py lines 32-36) -/

def MAX_CONCURRENT_REQUESTS : Nat := 100
def MAX_RETRIES : Nat := 15
def INITIAL_DELAY : Nat := 5
def MAX_DELAY : Nat := 120
def GITHUB_MAX_RETRIES : Nat := 15

/-- Number of API mirror URLs (`API_URLS`, lines 26-30). -/
def API_URLS_length : Nat := 3

/-- Per-account timeout passed to `fetch_token_with_timeout` (line 90/307). -/
def PER_ACCOUNT_TIMEOUT : ℚ := 180

/-- Batch-level timeout around `asyncio.gather` (line 314). -/
def BATCH_TIMEOUT : ℚ := 1200

/-! ### RegionStats (the shared `stats` dict)

`process_region` (lines 276-281) resets the keys
`current_region, total, completed, success, failed, timed_out`. -/

structure Stats where
  current_region : String
  total : Nat
  completed : Nat
  success : Nat
  failed : Nat
  timed_out : Nat
deriving Repr, DecidableEq

/-- The reset performed at the start of `process_region` (lines 276-281). -/
def resetStats (region : String) (total : Nat) : Stats :=
  { current_region := region, total := total, completed := 0,
    success := 0, failed := 0, timed_out := 0 }

/-! ### RateLimitManager (lines 47-64) -/

structure RateLimitManager where
  /-- `self.first_error_occurred`, an `asyncio.Event` (true = set). -/
  first_error_occurred : Bool
  /-- `self.pause_in_progress`. -/
  pause_in_progress : Bool
deriving Repr, DecidableEq

/-- `RateLimitManager.__init__` (lines 49-52). -/
def RateLimitManager.init : RateLimitManager :=
  { first_error_occurred := false, pause_in_progress := false }

/-- `handle_rate_limit` (lines 54-60): under the lock, if the event is not
set, set it, mark a pause in progress and return `True`; otherwise return
`False`. -/
def handle_rate_limit (m : RateLimitManager) : Bool × RateLimitManager :=
  if m.first_error_occurred = false then
    (true, { first_error_occurred := true, pause_in_progress := true })
  else
    (false, m)

/-- `reset` (lines 62-64): clear the event and the pause flag.  (Never
called anywhere in the repository: `process_region` builds a fresh
manager per region instead.) -/
def RateLimitManager.reset (_ : RateLimitManager) : RateLimitManager :=
  { first_error_occurred := false, pause_in_progress := false }

/-- Return values of a sequence of `n` consecutive `handle_rate_limit`
calls starting from state `m` (no `reset` in between). -/
def runHandleCalls : Nat → RateLimitManager → List Bool
  | 0, _ => []
  | n + 1, m =>
      let r := handle_rate_limit m
      r.1 :: runHandleCalls n r.2

/-! ### The claiming caller's pause cycle (fetch_token lines 144-148)

`pause_event.set(); await asyncio.sleep(5); pause_event.clear();
rate_limit_manager.pause_in_progress = False`.  The cycle is modelled as
a function of the pause-event state and the manager, also reporting the
sleeps it performs. -/

structure PauseState where
  pause_event : Bool
  manager : RateLimitManager
deriving Repr, DecidableEq

/-- Effect of lines 145-148 on the shared state, paired with the list of
sleep durations the claiming caller performs. -/
def claimerPauseCycle (s : PauseState) : PauseState × List ℚ :=
  ({ pause_event := false,
     manager := { s.manager with pause_in_progress := false } }, [5])

/-! ### Timed model of the non-claiming caller's branch (lines 149-152)

`asyncio.Event.wait()` returns immediately when the event is currently
set, and otherwise suspends until the next `set()`.  Instants are ticks
of one tenth of a time unit. -/

/-- Completion instant of `await pause_event.wait()` issued at `now`:
immediate when the event is set, else the instant the event is next set. -/
def eventWaitCompletion (isSet : Bool) (now nextSetTime : Nat) : Nat :=
  if isSet then now else nextSetTime

/-- Lines 150-152: `if pause_event.is_set(): await pause_event.wait();
await asyncio.sleep(0.1)`.  Returns the instant at which the non-claiming
fetcher proceeds past the branch. -/
def nonClaimerProceedTime (pauseIsSet : Bool) (now nextSetTime : Nat) : Nat :=
  if pauseIsSet then eventWaitCompletion pauseIsSet now nextSetTime + 1 else now

/-- The claiming caller asserts the pause at `tc` and clears it at
`tc + 50` ticks (the 5-unit sleep of line 146): the signal is asserted on
the half-open window `[tc, tc + 50)`. -/
def pauseAssertedAt (tc t : Nat) : Bool :=
  decide (tc ≤ t) && decide (t < tc + 50)

/-! ### fetch_token (lines 106-181)

One upstream response per attempt, supplied by a script.  A `200` body
is modelled by the optional value of its `token` field; Python's
`if token:` treats both a missing field and an empty string as false. -/

inductive ApiResponse where
  /-- HTTP 200; `tok` is `data.get("token")`. -/
  | ok (tok : Option String)
  /-- HTTP 429. -/
  | rateLimited
  /-- HTTP 500. -/
  | serverError
  /-- Any other status code. -/
  | otherStatus (code : Nat)
  /-- Transport / timeout / JSON-decode error (the `except` clause, line 164). -/
  | connectionError
deriving Repr, DecidableEq

/-- Python truthiness of `data.get("token")` (line 127). -/
def tokenTruthy : Option String → Bool
  | none => false
  | some t => t ≠ ""

/-- `min(INITIAL_DELAY * (2 ** (attempt - 1)), MAX_DELAY)` (line 116). -/
def baseDelay (attempt : Nat) : Nat :=
  min (INITIAL_DELAY * 2 ^ (attempt - 1)) MAX_DELAY

/-- Backoff sleep executed at the top of the loop body (lines 115-118):
nothing before attempt 0, `baseDelay + jitter` before attempt ≥ 1. -/
def attemptDelay (jitter : Nat → ℚ) (attempt : Nat) : ℚ :=
  if attempt = 0 then 0 else (baseDelay attempt : ℚ) + jitter attempt

/-- Success bookkeeping of lines 128-129. -/
def successStats (s : Stats) : Stats :=
  { s with success := s.success + 1, completed := s.completed + 1 }

/-- Retry-exhaustion bookkeeping of lines 179-180. -/
def failStats (s : Stats) : Stats :=
  { s with failed := s.failed + 1, completed := s.completed + 1 }

/-- The `for attempt in range(MAX_RETRIES)` loop of `fetch_token`
(lines 113-170), with `fuel = MAX_RETRIES - attempt` as the structural
measure.  Returns the outcome, the final stats, and the trace of backoff
delays slept before each attempt actually made (in attempt order).
Every non-success response rotates the mirror index and retries (lines
135, 154, 158, 162, 167); falling out of the loop records a failure
(lines 179-181). -/
def fetchLoop (script : Nat → ApiResponse) (jitter : Nat → ℚ) :
    Nat → Nat → Nat → Stats → List ℚ → Option String × Stats × List ℚ
  | 0, _, _, s, tr => (none, failStats s, tr)
  | fuel + 1, attempt, apiIndex, s, tr =>
      let tr' := tr ++ [attemptDelay jitter attempt]
      match script attempt with
      | .ok tok =>
          if tokenTruthy tok then (tok, successStats s, tr')
          else fetchLoop script jitter fuel (attempt + 1)
                 ((apiIndex + 1) % API_URLS_length) s tr'
      | _ => fetchLoop script jitter fuel (attempt + 1)
               ((apiIndex + 1) % API_URLS_length) s tr'

/-- `fetch_token` (lines 106-181): start at attempt 0, mirror index 0. -/
def fetch_token (script : Nat → ApiResponse) (jitter : Nat → ℚ)
    (s : Stats) : Option String × Stats × List ℚ :=
  fetchLoop script jitter MAX_RETRIES 0 0 s []

/-! ### fetch_token_with_timeout (lines 90-103) -/

/-- The `except asyncio.TimeoutError` branch (lines 97-103). -/
def timeoutStats (s : Stats) : Stats :=
  { s with failed := s.failed + 1, completed := s.completed + 1,
           timed_out := s.timed_out + 1 }

/-- `fetch_token_with_timeout`: `asyncio.wait_for(fetch_token(...),
timeout)` delivers the inner result (and its stats updates) when the
inner coroutine finishes in time `< timeout`; otherwise the inner task
is cancelled before reaching any terminal stats update and the wrapper
records failed+completed+timed_out and returns `None` (lines 97-103). -/
def fetch_token_with_timeout (innerDuration : ℚ)
    (inner : Option String × Stats) (s : Stats) (timeout : ℚ) :
    Option String × Stats :=
  if innerDuration < timeout then inner else (none, timeoutStats s)

/-! ### One whole per-account call, and folding a region's accounts -/

/-- Environment of one account's fetch: the response script, the random
jitter draws, and the wall-clock duration the inner coroutine would take. -/
structure AccountRun where
  script : Nat → ApiResponse
  jitter : Nat → ℚ
  duration : ℚ

/-- One call of `fetch_token_with_timeout` over `fetch_token` for one
account (line 307: `timeout=180`), threading the shared stats. -/
def runAccount (a : AccountRun) (s : Stats) : Option String × Stats :=
  let inner := fetch_token a.script a.jitter s
  fetch_token_with_timeout a.duration (inner.1, inner.2.1) s PER_ACCOUNT_TIMEOUT

/-- Stats after the per-account fetchers of `runs` have all reached their
terminal outcome, starting from `s`. -/
def foldStats (runs : List AccountRun) (s : Stats) : Stats :=
  runs.foldl (fun acc a => (runAccount a acc).2) s

/-- A concrete per-account environment: every attempt answers 500 and
the inner call finishes instantly. -/
def demoRun : AccountRun :=
  { script := fun _ => ApiResponse.serverError, jitter := fun _ => 0,
    duration := 0 }

/-! ### process_region (lines 249-366) -/

/-- One entry of the parsed region file.  Only the shape matters to the
validity filter: whether it is a dict and which keys it has. -/
inductive AccountEntry where
  | dict (fields : List (String × String))
  | nonDict
deriving Repr, DecidableEq

/-- The validity filter of lines 264-267: `isinstance(acc, dict) and
'uid' in acc and 'password' in acc`. -/
def isValidAccount : AccountEntry → Bool
  | .dict fields => fields.any (fun f => f.1 = "uid") &&
                    fields.any (fun f => f.1 = "password")
  | .nonDict => false

/-- `valid_accounts` (lines 264-267). -/
def valid_accounts (accounts : List AccountEntry) : List AccountEntry :=
  accounts.filter isValidAccount

/-- Python `round(x, 1)` on the exact rational value.  (Ties broken
upward here; the source computes in floats with banker's rounding — the
tie direction is irrelevant to every claim below, which compare against
this same function.) -/
def round1 (q : ℚ) : ℚ := (round (q * 10) : ℤ) / 10

/-- The dict returned by `process_region` (lines 359-366). -/
structure RegionResult where
  region : String
  total : Nat
  success : Nat
  failed : Nat
  success_rate : ℚ
  duration : ℚ
deriving Repr, DecidableEq

/-- Lines 359-366: build the region summary from the gathered `results`
list.  `valid_tokens = [r for r in results if r is not None]`
(line 329). -/
def buildRegionResult (region : String) (results : List (Option String))
    (total : Nat) (duration : ℚ) : RegionResult :=
  let valid_tokens := results.filterMap id
  { region := region, total := total,
    success := valid_tokens.length,
    failed := total - valid_tokens.length,
    success_rate :=
      if total > 0 then round1 ((valid_tokens.length : ℚ) / (total : ℚ) * 100)
      else 0,
    duration := duration }

/-- Lines 311-366 after the fan-out: `asyncio.wait_for(asyncio.gather(*tasks),
timeout=1200)` yields the gathered per-account results when the whole
gather finishes in time `< 1200`; on `asyncio.TimeoutError` the stats are
not touched and `results = [None] * total` (line 319).  Returns the
(unchanged) stats and the `RegionResult` built at lines 359-366. -/
def process_region_finish (region : String) (gatherDuration : ℚ)
    (gathered : List (Option String)) (stats : Stats) (total : Nat)
    (duration : ℚ) : Stats × RegionResult :=
  let results :=
    if gatherDuration < BATCH_TIMEOUT then gathered
    else List.replicate total none
  (stats, buildRegionResult region results total duration)

/-- The early-exit structure of `process_region` (lines 264-271): the
number of valid accounts becomes `total`; with zero valid accounts the
function returns `None` before dispatching anything. -/
def process_region_total (accounts : List AccountEntry) : Option Nat :=
  let total := (valid_accounts accounts).length
  if total = 0 then none else some total

/-! ### push_to_github (lines 202-246) -/

/-- What the environment does to one publish attempt: the PUT's HTTP
status, or an exception anywhere in the attempt body (caught at
lines 241-242). -/
inductive PushAttemptOutcome where
  | putStatus (code : Nat)
  | exn
deriving Repr, DecidableEq

/-- `resp.status in [200, 201]` (line 236). -/
def isPushSuccess : PushAttemptOutcome → Bool
  | .putStatus code => code = 200 || code = 201
  | .exn => false

/-- The `for attempt in range(GITHUB_MAX_RETRIES)` loop (lines 211-242):
success on 200/201 stops the loop with `True`; any other status or an
exception continues.  Returns the result and the number of attempts that
issued requests. -/
def pushLoop (script : Nat → PushAttemptOutcome) :
    Nat → Nat → Bool × Nat
  | 0, attempt => (false, attempt)
  | fuel + 1, attempt =>
      if isPushSuccess (script attempt) then (true, attempt + 1)
      else pushLoop script fuel (attempt + 1)

/-- Python truthiness of `GITHUB_TOKEN` (line 204): `os.getenv` may
yield no value or an empty string, both falsy. -/
def credentialConfigured : Option String → Bool
  | none => false
  | some t => t ≠ ""

/-- `push_to_github` (lines 202-246): without a configured credential,
log once and return `False` with zero requests issued; otherwise run the
retry loop and log the terminal outcome.  Returns
(success, attempts issued, log lines). -/
def push_to_github (ghToken : Option String)
    (script : Nat → PushAttemptOutcome) : Bool × Nat × List String :=
  if credentialConfigured ghToken = false then
    (false, 0, ["GitHub token not configured"])
  else
    let r := pushLoop script GITHUB_MAX_RETRIES 0
    if r.1 then (true, r.2, ["Pushed"])
    else (false, r.2, ["Failed to push"])

/-! ### LogCollector (lines 67-87) -/

structure LogEntry where
  timestamp : String
  message : String
  level : String
deriving Repr, DecidableEq

structure LogCollector where
  logs : List LogEntry
  max_logs : Nat
deriving Repr, DecidableEq

/-- `LogCollector.__init__` (lines 69-71). -/
def LogCollector.init : LogCollector := { logs := [], max_logs := 500 }

/-- `add` (lines 73-81): append the new entry, then drop the oldest one
when the length exceeds `max_logs`. -/
def LogCollector.add (c : LogCollector) (e : LogEntry) : LogCollector :=
  let logs := c.logs ++ [e]
  if logs.length > c.max_logs then { c with logs := logs.tail }
  else { c with logs := logs }

/-- Python's `xs[-count:]`: for `count = 0` the slice index `-0` is `0`,
so the whole list is returned; for `count ≥ 1` the last
`min count xs.length` elements. -/
def pySliceLast {α : Type} (xs : List α) (count : Nat) : List α :=
  if count = 0 then xs else xs.drop (xs.length - count)

/-- `get_recent` (lines 83-84): `self.logs[-count:] if self.logs else []`. -/
def LogCollector.get_recent (c : LogCollector) (count : Nat) : List LogEntry :=
  if c.logs = [] then [] else pySliceLast c.logs count

/-- A concrete log entry used in concrete evaluations. -/
def demoEntry : LogEntry :=
  { timestamp := "00:00:00", message := "m", level := "info" }

/-! ## Theorems -/

/-- Once the claimed flag is set, every further `handle_rate_limit` call
returns `false` and leaves the state unchanged. -/
lemma runHandleCalls_claimed (n : Nat) :
    ∀ m : RateLimitManager, m.first_error_occurred = true →
      runHandleCalls n m = List.replicate n false := by
  induction n with
  | zero => intro m _; rfl
  | succ k ih =>
      intro m hm
      simp only [runHandleCalls, handle_rate_limit, hm]
      simp only [Bool.true_eq_false, if_false, List.replicate_succ,
        List.cons.injEq, true_and]
      exact ih m hm

/-- C3: For every sequence of calls to the Rate-Limit Coordinator's
handle_rate_limit since the last reset (i.e. from the freshly
constructed state), exactly the first call returns true and every
subsequent call returns false; the first call is the one that flips the
trigger state to owned. -/
theorem C3_first_claimer_only (n : Nat) :
    runHandleCalls (n + 1) RateLimitManager.init =
      true :: List.replicate n false ∧
    (handle_rate_limit RateLimitManager.init).2.pause_in_progress = true := by
  constructor
  · have h1 : runHandleCalls (n + 1) RateLimitManager.init =
        true :: runHandleCalls n
          { first_error_occurred := true, pause_in_progress := true } := rfl
    rw [h1, runHandleCalls_claimed n
      { first_error_occurred := true, pause_in_progress := true } rfl]
  · rfl

/-- C4 counterexample: after the first claimer finishes its pause cycle,
the coordinator is NOT in the reset state (the claimed flag is still
set), and a second rate-limit event in the same region batch receives
`false` — no fresh pause cycle can be triggered. -/
theorem C4_reset_counterexample :
    (claimerPauseCycle
        { pause_event := true,
          manager := (handle_rate_limit RateLimitManager.init).2 }).1.manager ≠
      RateLimitManager.reset RateLimitManager.init ∧
    (handle_rate_limit
        (claimerPauseCycle
          { pause_event := true,
            manager := (handle_rate_limit RateLimitManager.init).2 }).1.manager).1 =
      false := by
  decide

/-- C4 amended: the claiming caller asserts the pause signal, sleeps the
fixed 5-unit cooldown, then clears the signal and clears only
`pause_in_progress`; it does not reset the coordinator's claimed flag,
so after the cooldown every further rate-limit event in the same region
batch receives `false` (no fresh pause cycle until a new region builds a
fresh coordinator). -/
theorem C4_pause_cycle_amended (p : Bool) (m : RateLimitManager) :
    (claimerPauseCycle { pause_event := p, manager := m }).2 = [5] ∧
    (claimerPauseCycle { pause_event := p, manager := m }).1.pause_event = false ∧
    (claimerPauseCycle { pause_event := p, manager := m }).1.manager.pause_in_progress = false ∧
    (claimerPauseCycle { pause_event := p, manager := m }).1.manager.first_error_occurred =
      m.first_error_occurred ∧
    (m.first_error_occurred = true →
      ∀ n, runHandleCalls n
          (claimerPauseCycle { pause_event := p, manager := m }).1.manager =
        List.replicate n false) := by
  refine ⟨rfl, rfl, rfl, rfl, fun hm n => ?_⟩
  exact runHandleCalls_claimed n _ hm

/-- C4 amended, witness at a concrete post-claim state. -/
theorem C4_pause_cycle_amended_witness :
    (claimerPauseCycle
        { pause_event := true,
          manager := { first_error_occurred := true, pause_in_progress := true } }).2 = [5] ∧
    runHandleCalls 1
        (claimerPauseCycle
          { pause_event := true,
            manager := { first_error_occurred := true, pause_in_progress := true } }).1.manager =
      [false] :=
  ⟨(C4_pause_cycle_amended true
      { first_error_occurred := true, pause_in_progress := true }).1,
   ((C4_pause_cycle_amended true
      { first_error_occurred := true, pause_in_progress := true }).2.2.2.2 rfl 1)⟩

/-- C5 (code bug evidence): a non-claiming fetcher that reports a
rate-limit at tick 10, while the shared pause is asserted on the window
[0, 50), proceeds at tick 11 — `asyncio.Event.wait()` returns
immediately because the event is currently set — and at tick 11 the
pause signal is still asserted. -/
theorem C5_nonclaimer_proceeds_while_paused :
    nonClaimerProceedTime true 10 0 = 11 ∧
    pauseAssertedAt 0 11 = true := by
  decide

/-- C7: when the inner fetch exceeds the 180-unit per-call timeout, the
wrapper returns the absent outcome without raising, and its sole effect
is to increment `failed`, `completed` and `timed_out` each by exactly 1. -/
theorem C7_timeout_outcome (d : ℚ) (inner : Option String × Stats)
    (s : Stats) (h : PER_ACCOUNT_TIMEOUT < d) :
    fetch_token_with_timeout d inner s PER_ACCOUNT_TIMEOUT = (none, timeoutStats s) ∧
    (timeoutStats s).failed = s.failed + 1 ∧
    (timeoutStats s).completed = s.completed + 1 ∧
    (timeoutStats s).timed_out = s.timed_out + 1 ∧
    (timeoutStats s).success = s.success ∧
    (timeoutStats s).total = s.total ∧
    (timeoutStats s).current_region = s.current_region := by
  refine ⟨?_, rfl, rfl, rfl, rfl, rfl, rfl⟩
  simp only [fetch_token_with_timeout, if_neg (not_lt.mpr (le_of_lt h))]

/-- C7, witness: a fetch taking 200 units against the 180-unit budget. -/
theorem C7_timeout_outcome_witness :
    PER_ACCOUNT_TIMEOUT < (200 : ℚ) ∧
    fetch_token_with_timeout 200 (none, resetStats "NA" 1) (resetStats "NA" 1)
        PER_ACCOUNT_TIMEOUT =
      (none, timeoutStats (resetStats "NA" 1)) :=
  ⟨by norm_num [PER_ACCOUNT_TIMEOUT],
   (C7_timeout_outcome 200 (none, resetStats "NA" 1) (resetStats "NA" 1)
      (by norm_num [PER_ACCOUNT_TIMEOUT])).1⟩

/-- C10 counterexample: `get_recent 0` on a one-entry buffer returns the
whole buffer (Python `logs[-0:]` is `logs[0:]`), not the
`min 0 1 = 0` most recent entries the claim requires. -/
theorem C10_get_recent_counterexample :
    (LogCollector.init.add demoEntry).get_recent 0 = [demoEntry] ∧
    min 0 (LogCollector.init.add demoEntry).logs.length = 0 := by
  decide

/-- C10 amended: every add appends one entry and, when the 500-entry
bound is exceeded, drops exactly the oldest entry, so the buffer never
holds more than 500 entries; and for every `count ≥ 1`, `get_recent
count` returns the most recent `min count length` entries in
chronological order (`get_recent 0` instead returns the whole buffer). -/
theorem C10_log_buffer_amended (c : LogCollector) (e : LogEntry) (count : Nat) :
    (c.max_logs = 500 → c.logs.length ≤ 500 → (c.add e).logs.length ≤ 500) ∧
    ((c.add e).logs =
      if c.logs.length + 1 > c.max_logs then (c.logs ++ [e]).tail
      else c.logs ++ [e]) ∧
    (1 ≤ count →
      c.get_recent count = c.logs.drop (c.logs.length - min count c.logs.length) ∧
      (c.get_recent count).length = min count c.logs.length) := by
  refine ⟨?_, ?_, fun hcount => ?_⟩
  · intro hmax hlen
    simp only [LogCollector.add, hmax]
    split
    · simp only [List.length_tail, List.length_append, List.length_singleton]
      omega
    · rename_i hnot
      simp only [List.length_append, List.length_singleton] at hnot ⊢
      omega
  · simp only [LogCollector.add, List.length_append, List.length_singleton]
    split <;> rfl
  · have hc : count ≠ 0 := by omega
    constructor
    · simp only [LogCollector.get_recent, pySliceLast, if_neg hc]
      split
      · rename_i hnil
        simp [hnil]
      · congr 1
        omega
    · simp only [LogCollector.get_recent, pySliceLast, if_neg hc]
      split
      · rename_i hnil
        simp [hnil]
      · simp only [List.length_drop]
        omega

/-- The retry loop of `fetch_token` reaches exactly one terminal stats
update: either the success bookkeeping or the exhaustion bookkeeping,
applied once to the stats it was given. -/
lemma fetchLoop_stats_dichotomy (script : Nat → ApiResponse)
    (jitter : Nat → ℚ) (fuel : Nat) :
    ∀ (attempt apiIndex : Nat) (s : Stats) (tr : List ℚ),
      (fetchLoop script jitter fuel attempt apiIndex s tr).2.1 = successStats s ∨
      (fetchLoop script jitter fuel attempt apiIndex s tr).2.1 = failStats s := by
  induction fuel with
  | zero => intro attempt apiIndex s tr; right; rfl
  | succ n ih =>
      intro attempt apiIndex s tr
      simp only [fetchLoop]
      cases script attempt with
      | ok tok =>
          by_cases htok : tokenTruthy tok = true
          · left; simp [htok]
          · simp only [htok, if_false]; exact ih _ _ s _
      | rateLimited => exact ih _ _ s _
      | serverError => exact ih _ _ s _
      | otherStatus code => exact ih _ _ s _
      | connectionError => exact ih _ _ s _

/-- One whole per-account call performs exactly one of the three
terminal stats updates of the source: success (lines 128-129),
exhaustion (lines 179-180), or timeout (lines 98-100). -/
lemma runAccount_stats (a : AccountRun) (s : Stats) :
    (runAccount a s).2 = successStats s ∨
    (runAccount a s).2 = failStats s ∨
    (runAccount a s).2 = timeoutStats s := by
  unfold runAccount fetch_token_with_timeout
  split
  · rcases fetchLoop_stats_dichotomy a.script a.jitter MAX_RETRIES 0 0 s []
      with h | h
    · left; exact h
    · right; left; exact h
  · right; right; rfl

/-- Each per-account terminal outcome adds exactly 1 to `completed` and
exactly 1 to `success + failed`. -/
lemma runAccount_increments (a : AccountRun) (s : Stats) :
    (runAccount a s).2.completed = s.completed + 1 ∧
    (runAccount a s).2.success + (runAccount a s).2.failed =
      s.success + s.failed + 1 := by
  rcases runAccount_stats a s with h | h | h
  · rw [h]
    refine ⟨rfl, ?_⟩
    show s.success + 1 + s.failed = s.success + s.failed + 1
    omega
  · rw [h]
    refine ⟨rfl, ?_⟩
    show s.success + (s.failed + 1) = s.success + s.failed + 1
    omega
  · rw [h]
    refine ⟨rfl, ?_⟩
    show s.success + (s.failed + 1) = s.success + s.failed + 1
    omega

/-- Folding any batch of per-account runs adds the batch size to
`completed` and to `success + failed`. -/
lemma foldStats_counts (runs : List AccountRun) :
    ∀ s : Stats,
      (foldStats runs s).completed = s.completed + runs.length ∧
      (foldStats runs s).success + (foldStats runs s).failed =
        s.success + s.failed + runs.length := by
  induction runs with
  | nil => intro s; simp [foldStats]
  | cons a rest ih =>
      intro s
      have hstep := runAccount_increments a s
      have hrest := ih (runAccount a s).2
      simp only [foldStats, List.foldl_cons] at hrest ⊢
      simp only [List.length_cons]
      omega

/-- C1: starting from the region reset, after any prefix of `k` accounts
has reached a terminal outcome, `completed = k` (each account's call
incremented `completed` exactly once — never twice) and
`completed = success + failed`; and every single call performs exactly
one terminal update: success adds 1 to `success` and `completed`,
exhaustion adds 1 to `failed` and `completed`, timeout adds 1 to
`failed`, `completed` and `timed_out`. -/
theorem C1_stats_exactly_once (runs : List AccountRun) (region : String)
    (total : Nat) (k : Nat) (hk : k ≤ runs.length) :
    (foldStats (runs.take k) (resetStats region total)).completed = k ∧
    (foldStats (runs.take k) (resetStats region total)).completed =
      (foldStats (runs.take k) (resetStats region total)).success +
        (foldStats (runs.take k) (resetStats region total)).failed ∧
    ∀ (a : AccountRun) (s : Stats),
      (runAccount a s).2 = successStats s ∨
      (runAccount a s).2 = failStats s ∨
      (runAccount a s).2 = timeoutStats s := by
  have hlen : (runs.take k).length = k := by
    rw [List.length_take]; omega
  have h := foldStats_counts (runs.take k) (resetStats region total)
  rw [hlen] at h
  refine ⟨?_, ?_, fun a s => runAccount_stats a s⟩
  · rw [h.1]; simp [resetStats]
  · rw [h.1, h.2]; simp [resetStats]

/-- C1, witness: a one-account region processed to completion. -/
theorem C1_stats_exactly_once_witness :
    1 ≤ [demoRun].length ∧
    (foldStats ([demoRun].take 1) (resetStats "NA" 1)).completed = 1 ∧
    (foldStats ([demoRun].take 1) (resetStats "NA" 1)).completed =
      (foldStats ([demoRun].take 1) (resetStats "NA" 1)).success +
        (foldStats ([demoRun].take 1) (resetStats "NA" 1)).failed :=
  ⟨by decide,
   (C1_stats_exactly_once [demoRun] "NA" 1 1 (by decide)).1,
   (C1_stats_exactly_once [demoRun] "NA" 1 1 (by decide)).2.1⟩

/-- The retry loop's delay trace extends the accumulator with one
`attemptDelay` entry per attempt actually made, consecutively numbered
from the starting attempt, and makes at most `fuel` further attempts. -/
lemma fetchLoop_trace (script : Nat → ApiResponse) (jitter : Nat → ℚ)
    (fuel : Nat) :
    ∀ (attempt apiIndex : Nat) (s : Stats) (tr : List ℚ),
      ∃ m : Nat, m ≤ fuel ∧
        (fetchLoop script jitter fuel attempt apiIndex s tr).2.2 =
          tr ++ (List.range m).map (fun i => attemptDelay jitter (attempt + i)) := by
  induction fuel with
  | zero =>
      intro attempt apiIndex s tr
      exact ⟨0, le_refl 0, by simp [fetchLoop]⟩
  | succ n ih =>
      intro attempt apiIndex s tr
      have hone :
          tr ++ [attemptDelay jitter attempt] =
            tr ++ (List.range 1).map (fun i => attemptDelay jitter (attempt + i)) := by
        simp [show List.range 1 = [0] from rfl]
      have hstep : ∀ m : Nat,
          (tr ++ [attemptDelay jitter attempt]) ++
              (List.range m).map (fun i => attemptDelay jitter (attempt + 1 + i)) =
            tr ++ (List.range (m + 1)).map (fun i => attemptDelay jitter (attempt + i)) := by
        intro m
        rw [List.append_assoc]
        congr 1
        rw [List.range_succ_eq_map, List.map_cons, List.map_map,
          List.singleton_append]
        congr 1
        apply List.map_congr_left
        intro i _
        show attemptDelay jitter (attempt + 1 + i) =
          attemptDelay jitter (attempt + Nat.succ i)
        congr 1
        omega
      simp only [fetchLoop]
      cases script attempt with
      | ok tok =>
          by_cases htok : tokenTruthy tok = true
          · refine ⟨1, by omega, ?_⟩
            simp only [htok, if_true]
            exact hone
          · simp only [htok, Bool.false_eq_true, if_false]
            obtain ⟨m, hm, heq⟩ := ih (attempt + 1)
              ((apiIndex + 1) % API_URLS_length) s
              (tr ++ [attemptDelay jitter attempt])
            exact ⟨m + 1, by omega, by rw [heq, hstep m]⟩
      | rateLimited =>
          obtain ⟨m, hm, heq⟩ := ih (attempt + 1)
            ((apiIndex + 1) % API_URLS_length) s
            (tr ++ [attemptDelay jitter attempt])
          exact ⟨m + 1, by omega, by rw [heq, hstep m]⟩
      | serverError =>
          obtain ⟨m, hm, heq⟩ := ih (attempt + 1)
            ((apiIndex + 1) % API_URLS_length) s
            (tr ++ [attemptDelay jitter attempt])
          exact ⟨m + 1, by omega, by rw [heq, hstep m]⟩
      | otherStatus code =>
          obtain ⟨m, hm, heq⟩ := ih (attempt + 1)
            ((apiIndex + 1) % API_URLS_length) s
            (tr ++ [attemptDelay jitter attempt])
          exact ⟨m + 1, by omega, by rw [heq, hstep m]⟩
      | connectionError =>
          obtain ⟨m, hm, heq⟩ := ih (attempt + 1)
            ((apiIndex + 1) % API_URLS_length) s
            (tr ++ [attemptDelay jitter attempt])
          exact ⟨m + 1, by omega, by rw [heq, hstep m]⟩

/-- The delay trace of a whole `fetch_token` call is
`[attemptDelay 0, ..., attemptDelay (m-1)]` for some `m ≤ MAX_RETRIES`. -/
lemma fetch_token_trace (script : Nat → ApiResponse) (jitter : Nat → ℚ)
    (s : Stats) :
    ∃ m : Nat, m ≤ MAX_RETRIES ∧
      (fetch_token script jitter s).2.2 =
        (List.range m).map (attemptDelay jitter) := by
  obtain ⟨m, hm, heq⟩ := fetchLoop_trace script jitter MAX_RETRIES 0 0 s []
  refine ⟨m, hm, ?_⟩
  rw [fetch_token, heq]
  simp

/-- C6: for any responses and any jitter draws in `[0, 5]`, the retry
loop makes at most 15 attempts; the sleep before attempt 0 is 0, and the
sleep before every attempt `k ≥ 1` is `min (5 * 2 ^ (k - 1)) 120` plus
the jitter draw for that attempt, which lies in `[0, 5]`. -/
theorem C6_retry_schedule (script : Nat → ApiResponse) (jitter : Nat → ℚ)
    (s : Stats) (hj : ∀ i, 0 ≤ jitter i ∧ jitter i ≤ 5) :
    (fetch_token script jitter s).2.2.length ≤ 15 ∧
    ∀ k : Nat, k < (fetch_token script jitter s).2.2.length →
      (fetch_token script jitter s).2.2.getD k 0 =
        (if k = 0 then 0
         else ((min (5 * 2 ^ (k - 1)) 120 : Nat) : ℚ) + jitter k) ∧
      (0 ≤ jitter k ∧ jitter k ≤ 5) := by
  obtain ⟨m, hm, heq⟩ := fetch_token_trace script jitter s
  rw [heq]
  constructor
  · simp only [List.length_map, List.length_range]
    exact le_trans hm (by norm_num [MAX_RETRIES])
  · intro k hk
    simp only [List.length_map, List.length_range] at hk
    refine ⟨?_, hj k⟩
    have hget :
        ((List.range m).map (attemptDelay jitter)).getD k 0 =
          attemptDelay jitter k := by
      rw [List.getD_eq_getElem _ _ (by simpa using hk)]
      simp
    rw [hget]
    simp only [attemptDelay, baseDelay, INITIAL_DELAY, MAX_DELAY]

/-- C6, witness: all-500 responses with zero jitter. -/
theorem C6_retry_schedule_witness :
    (fetch_token (fun _ => ApiResponse.serverError) (fun _ => 0)
        (resetStats "NA" 1)).2.2.length ≤ 15 :=
  (C6_retry_schedule (fun _ => ApiResponse.serverError) (fun _ => 0)
    (resetStats "NA" 1) (fun i => by norm_num)).1

/-- Discarded gather results contain no tokens. -/
lemma filterMap_id_replicate_none (n : Nat) :
    (List.replicate n (none : Option String)).filterMap id = [] := by
  induction n with
  | zero => rfl
  | succ k ih => simp [List.replicate_succ, ih]

/-- C2 counterexample: a two-account region where one account already
succeeded (`stats.success = 1`) hits the batch timeout (gather takes
1300 > 1200).  The stats are indeed left as-is, but the returned
RegionResult reports `success = 0` and `failed = 2` — the partial
success is NOT reported in the RegionResult. -/
theorem C2_partial_counts_counterexample :
    (process_region_finish "NA" 1300 [some "tok", none]
        { current_region := "NA", total := 2, completed := 1, success := 1,
          failed := 0, timed_out := 0 } 2 1300).1.success = 1 ∧
    (process_region_finish "NA" 1300 [some "tok", none]
        { current_region := "NA", total := 2, completed := 1, success := 1,
          failed := 0, timed_out := 0 } 2 1300).2.success = 0 ∧
    (process_region_finish "NA" 1300 [some "tok", none]
        { current_region := "NA", total := 2, completed := 1, success := 1,
          failed := 0, timed_out := 0 } 2 1300).2.failed = 2 := by
  refine ⟨rfl, ?_, ?_⟩ <;>
    · rw [show process_region_finish "NA" 1300 [some "tok", none]
            { current_region := "NA", total := 2, completed := 1, success := 1,
              failed := 0, timed_out := 0 } 2 1300 =
          ({ current_region := "NA", total := 2, completed := 1, success := 1,
             failed := 0, timed_out := 0 },
           buildRegionResult "NA" (List.replicate 2 none) 2 1300) from by
        rw [process_region_finish, if_neg (by norm_num [BATCH_TIMEOUT])]]
      simp [buildRegionResult, filterMap_id_replicate_none]

/-- C2 amended: when the region fan-out exceeds the 1200-unit batch
timeout, all outstanding fetches are abandoned and the accumulated stats
are left as-is, but the returned RegionResult is built from a discarded
result list: it reports `success = 0`, `failed = total` and
`success_rate = 0`, so partial successes survive only in the shared
stats counters, not in the RegionResult. -/
theorem C2_batch_timeout_amended (region : String) (gd : ℚ)
    (hgd : BATCH_TIMEOUT ≤ gd) (gathered : List (Option String))
    (stats : Stats) (total : Nat) (dur : ℚ) :
    (process_region_finish region gd gathered stats total dur).1 = stats ∧
    (process_region_finish region gd gathered stats total dur).2.success = 0 ∧
    (process_region_finish region gd gathered stats total dur).2.failed = total ∧
    (process_region_finish region gd gathered stats total dur).2.success_rate = 0 := by
  have hnot : ¬ gd < BATCH_TIMEOUT := not_lt.mpr hgd
  refine ⟨rfl, ?_, ?_, ?_⟩ <;>
    simp [process_region_finish, buildRegionResult, hnot,
      filterMap_id_replicate_none, round1]

/-- C2 amended, witness at the counterexample's configuration. -/
theorem C2_batch_timeout_amended_witness :
    BATCH_TIMEOUT ≤ (1300 : ℚ) ∧
    (process_region_finish "NA" 1300 [some "tok", none]
        { current_region := "NA", total := 2, completed := 1, success := 1,
          failed := 0, timed_out := 0 } 2 1300).2.failed = 2 :=
  ⟨by norm_num [BATCH_TIMEOUT],
   (C2_batch_timeout_amended "NA" 1300 (by norm_num [BATCH_TIMEOUT])
      [some "tok", none]
      { current_region := "NA", total := 2, completed := 1, success := 1,
        failed := 0, timed_out := 0 } 2 1300).2.2.1⟩

/-- C8: `process_region` skips a region exactly when it has zero valid
accounts; otherwise `total` counts the structurally valid credential
entries only, and the RegionResult built from any full-length result
list satisfies `success + failed = total` and
`success_rate = round1 (success / total * 100)`; a result built with
`total = 0` has `success_rate = 0`. -/
theorem C8_region_result (accounts : List AccountEntry) (region : String)
    (dur : ℚ) :
    ((valid_accounts accounts).length = 0 → process_region_total accounts = none) ∧
    (∀ total : Nat, process_region_total accounts = some total →
      total = (valid_accounts accounts).length ∧
      ∀ results : List (Option String), results.length = total →
        (buildRegionResult region results total dur).total =
          (valid_accounts accounts).length ∧
        (buildRegionResult region results total dur).success +
          (buildRegionResult region results total dur).failed = total ∧
        (buildRegionResult region results total dur).success_rate =
          round1 (((buildRegionResult region results total dur).success : ℚ) /
            (total : ℚ) * 100)) ∧
    (∀ results : List (Option String),
      (buildRegionResult region results 0 dur).success_rate = 0) := by
  refine ⟨?_, ?_, ?_⟩
  · intro h
    simp [process_region_total, h]
  · intro total htotal
    have htot : total = (valid_accounts accounts).length := by
      by_cases h0 : (valid_accounts accounts).length = 0
      · simp [process_region_total, h0] at htotal
      · simp only [process_region_total, if_neg h0, Option.some.injEq] at htotal
        omega
    refine ⟨htot, fun results hres => ?_⟩
    have hle : (results.filterMap id).length ≤ total := by
      calc (results.filterMap id).length ≤ results.length :=
            List.length_filterMap_le id results
        _ = total := hres
    have hpos : 0 < total := by
      by_cases h0 : (valid_accounts accounts).length = 0
      · simp [process_region_total, h0] at htotal
      · omega
    refine ⟨htot, ?_, ?_⟩
    · show (results.filterMap id).length +
        (total - (results.filterMap id).length) = total
      omega
    · show (if total > 0 then
          round1 (((results.filterMap id).length : ℚ) / (total : ℚ) * 100)
        else 0) =
        round1 (((results.filterMap id).length : ℚ) / (total : ℚ) * 100)
      rw [if_pos hpos]
  · intro results
    show (if (0 : Nat) > 0 then
        round1 (((results.filterMap id).length : ℚ) / ((0 : Nat) : ℚ) * 100)
      else (0 : ℚ)) = 0
    simp

/-- C8, witness: one valid and one malformed entry, one gathered result. -/
theorem C8_region_result_witness :
    process_region_total
        [AccountEntry.dict [("uid", "1"), ("password", "p")],
         AccountEntry.nonDict] = some 1 ∧
    (buildRegionResult "NA" [some "tok"] 1 0).success +
      (buildRegionResult "NA" [some "tok"] 1 0).failed = 1 :=
  ⟨by decide,
   (((C8_region_result
        [AccountEntry.dict [("uid", "1"), ("password", "p")],
         AccountEntry.nonDict] "NA" 0).2.1 1 (by decide)).2
      [some "tok"] (by decide)).2.1⟩

/-- If no attempt in the window succeeds, the publish loop exhausts its
fuel and reports failure after `attempt + fuel` attempts. -/
lemma pushLoop_all_fail (script : Nat → PushAttemptOutcome) (fuel : Nat) :
    ∀ attempt : Nat,
      (∀ j, attempt ≤ j → j < attempt + fuel → isPushSuccess (script j) = false) →
      pushLoop script fuel attempt = (false, attempt + fuel) := by
  induction fuel with
  | zero => intro attempt _; rfl
  | succ n ih =>
      intro attempt hfail
      have h0 : isPushSuccess (script attempt) = false :=
        hfail attempt (le_refl attempt) (by omega)
      simp only [pushLoop, h0, Bool.false_eq_true, if_false]
      have := ih (attempt + 1) (fun j hj1 hj2 => hfail j (by omega) (by omega))
      rw [this]
      congr 1
      omega

/-- If some attempt in the window succeeds and no earlier one does, the
publish loop reports success. -/
lemma pushLoop_first_success (script : Nat → PushAttemptOutcome) (fuel : Nat) :
    ∀ attempt k : Nat, attempt ≤ k → k < attempt + fuel →
      isPushSuccess (script k) = true →
      (∀ j, attempt ≤ j → j < k → isPushSuccess (script j) = false) →
      (pushLoop script fuel attempt).1 = true := by
  induction fuel with
  | zero => intro attempt k h1 h2 _ _; omega
  | succ n ih =>
      intro attempt k h1 h2 hk hfirst
      by_cases h0 : isPushSuccess (script attempt) = true
      · simp [pushLoop, h0]
      · have hne : attempt ≠ k := fun h => h0 (h ▸ hk)
        have h0f : isPushSuccess (script attempt) = false := by
          cases hsa : isPushSuccess (script attempt)
          · rfl
          · exact absurd hsa h0
        simp only [pushLoop, h0f, Bool.false_eq_true, if_false]
        exact ih (attempt + 1) k (by omega) (by omega) hk
          (fun j hj1 hj2 => hfirst j (by omega) hj2)

/-- C9: without a configured access credential, `push_to_github` logs the
failure once and returns false with zero requests issued (no retry
loop); with a credential, the first 200/201 response terminates the loop
with true, and when all 15 attempts fail the function returns false
(with the failure logged) without raising. -/
theorem C9_publisher (ghToken : Option String)
    (script : Nat → PushAttemptOutcome) :
    (credentialConfigured ghToken = false →
      push_to_github ghToken script =
        (false, 0, ["GitHub token not configured"])) ∧
    (credentialConfigured ghToken = true →
      (∀ k, k < GITHUB_MAX_RETRIES → isPushSuccess (script k) = true →
        (∀ j, j < k → isPushSuccess (script j) = false) →
        (push_to_github ghToken script).1 = true) ∧
      ((∀ j, j < GITHUB_MAX_RETRIES → isPushSuccess (script j) = false) →
        push_to_github ghToken script =
          (false, GITHUB_MAX_RETRIES, ["Failed to push"]))) := by
  constructor
  · intro hno
    simp [push_to_github, hno]
  · intro hyes
    constructor
    · intro k hk hks hfirst
      have hloop := pushLoop_first_success script GITHUB_MAX_RETRIES 0 k
        (Nat.zero_le k) (by omega) hks (fun j _ hj => hfirst j hj)
      simp only [push_to_github, hyes, Bool.true_eq_false, if_false]
      simp [hloop]
    · intro hfail
      have hloop := pushLoop_all_fail script GITHUB_MAX_RETRIES 0
        (fun j _ hj => hfail j (by omega))
      simp only [push_to_github, hyes, Bool.true_eq_false, if_false]
      rw [hloop]
      simp

/-- C9, witness: no credential on one hand; with a credential, a first
attempt answering 200 on the other. -/
theorem C9_publisher_witness :
    credentialConfigured none = false ∧
    push_to_github none (fun _ => PushAttemptOutcome.exn) =
      (false, 0, ["GitHub token not configured"]) ∧
    credentialConfigured (some "t") = true ∧
    (push_to_github (some "t")
      (fun _ => PushAttemptOutcome.putStatus 200)).1 = true :=
  ⟨rfl,
   (C9_publisher none (fun _ => PushAttemptOutcome.exn)).1 rfl,
   by decide,
   ((C9_publisher (some "t") (fun _ => PushAttemptOutcome.putStatus 200)).2
      (by decide)).1 0 (by decide) (by decide) (fun j hj => absurd hj (by omega))⟩

/-- C10 amended, witness on a one-entry buffer with `count = 1`. -/
theorem C10_log_buffer_amended_witness :
    (LogCollector.init.add demoEntry).max_logs = 500 ∧
    (LogCollector.init.add demoEntry).logs.length ≤ 500 ∧
    ((LogCollector.init.add demoEntry).add demoEntry).logs.length ≤ 500 ∧
    (LogCollector.init.add demoEntry).get_recent 1 =
      (LogCollector.init.add demoEntry).logs.drop
        ((LogCollector.init.add demoEntry).logs.length -
          min 1 (LogCollector.init.add demoEntry).logs.length) :=
  ⟨rfl, by decide,
   (C10_log_buffer_amended (LogCollector.init.add demoEntry) demoEntry 1).1
     rfl (by decide),
   ((C10_log_buffer_amended (LogCollector.init.add demoEntry) demoEntry 1).2.2
     (by decide)).1⟩

end TokenFetcher
